import Mathlib

/-!
Verification of the `SW_RP2040-ProductionFlasher` repository against its
specification.

Each Python component relevant to the checked claims is shallowly embedded as
executable Lean definitions:

* byte buffers (Python `bytes` / `bytearray`) are `List Nat` with every element
  a byte value;
* text (Python `str`) is `List Char` where the structure of the string matters,
  so that all operations reduce in the kernel;
* fallible operations return `Option` / explicit result structures;
* filesystem and subprocess effects are abstracted into explicit input
  structures describing the observable outcomes the code branches on.

Definitions mirror the Python sources (file and function names are noted on
each definition).  Theorems at the end settle the claims.
-/

namespace ProductionFlasher

/-! ## Python-style helpers -/

/-- Model of Python `range(start, stop, step)` for `step > 0`: the list
`[start, start+step, ...]` of values strictly below `stop`. -/
def pythonRange (start stop step : Nat) : List Nat :=
  (List.range ((stop - start + step - 1) / step)).map (fun k => start + k * step)

/-- Model of Python's truthiness for an optional string: `None` and the empty
string are falsy. -/
def pyTruthy : Option (List Char) → Bool
  | none => false
  | some s => !s.isEmpty

/-! ## UF2 Binary Tools — `src/FlashApp/core/uf2_tools.py` -/

namespace UF2Tools

/-- Byte encoding of the literal `"DEVICE_ID:"` used by the marker. -/
def devicePrefixBytes : List Nat := [68, 69, 86, 73, 67, 69, 95, 73, 68, 58]

/-- Byte encoding of the literal `":END"` used by the marker. -/
def endSuffixBytes : List Nat := [58, 69, 78, 68]

/-- Marker text `DEVICE_ID:{serial}:END` (`uf2_tools.py` line 88), as bytes. -/
def markerBytes (serial : List Nat) : List Nat :=
  devicePrefixBytes ++ serial ++ endSuffixBytes

/-- Python `self.data[i:i] = encoded_marker`: splice `m` into `l` at byte
offset `i`. -/
def insertAt (l : List Nat) (i : Nat) (m : List Nat) : List Nat :=
  l.take i ++ m ++ l.drop i

/-- Body of `UF2File.embed_serial_number` (`uf2_tools.py` lines 84-109) once
the serial has passed the non-empty guard: append the marker at end-of-file,
compute `insertion_points = range(10240, original_size, 10240)` against the
pre-append length, and insert a marker copy at each point from the highest
offset down to the lowest. -/
def embedCore (data serial : List Nat) : List Nat :=
  ((pythonRange 10240 data.length 10240).reverse).foldl
    (fun acc i => insertAt acc i (markerBytes serial)) (data ++ markerBytes serial)

/-- `UF2File.embed_serial_number` (`uf2_tools.py` lines 67-109): returns
`False` (here `none`) for an empty serial, otherwise the modified buffer. -/
def embed_serial_number (data serial : List Nat) : Option (List Nat) :=
  if serial = [] then none else some (embedCore data serial)

/-- `extract_serial_from_uf2` (`uf2_tools.py` lines 136-159): leftmost match
of the regex `DEVICE_ID:([^:]+):END` over the raw bytes.  The greedy capture
`[^:]+` with backtracking is equivalent to: at the first position where the
bytes start with `DEVICE_ID:`, take the maximal colon-free run; the match
succeeds iff that run is non-empty and is followed by `:END`, and otherwise
the search resumes one byte further on. -/
def extract_serial_from_uf2 : List Nat → Option (List Nat)
  | [] => none
  | a :: rest =>
    if devicePrefixBytes.isPrefixOf (a :: rest) then
      let cap := ((a :: rest).drop 10).takeWhile (fun b => b != 58)
      if cap ≠ [] ∧ endSuffixBytes.isPrefixOf (((a :: rest).drop 10).drop cap.length) then
        some cap
      else extract_serial_from_uf2 rest
    else extract_serial_from_uf2 rest

/-- Number of (possibly overlapping) occurrences of `pat` as a contiguous
byte run inside a buffer. -/
def countOcc (pat : List Nat) : List Nat → Nat
  | [] => 0
  | a :: l => (if pat.isPrefixOf (a :: l) then 1 else 0) + countOcc pat l

end UF2Tools

/-! ## Shared text helpers (Python string semantics on `List Char`) -/

/-- Digits of a natural number, as characters (used for Python f-string
interpolation of integers). -/
def natToChars (n : Nat) : List Char := Nat.toDigits 10 n

/-- Python's default whitespace set for `str.strip()` (ASCII portion; the
sources only ever strip ASCII text). -/
def pyIsSpace (c : Char) : Bool :=
  (c == ' ') || (c == '\t') || (c == '\n') || (c == '\r') ||
    (c == '\x0b') || (c == '\x0c')

/-- Model of Python `str.strip()` with no arguments. -/
def pyStrip (s : List Char) : List Char :=
  ((s.dropWhile pyIsSpace).reverse.dropWhile pyIsSpace).reverse

/-- Model of Python `str.ljust(width, fill)`: pad on the right. -/
def ljust (s : List Char) (width : Nat) (fill : Char) : List Char :=
  s ++ List.replicate (width - s.length) fill

/-- Fuel-driven worker for Python `str.replace`: scan left to right, replace
each non-overlapping occurrence of `pat`, resume after the replacement.  The
fuel only bounds the recursion; `pyReplace` supplies enough for the whole
scan.  (For an empty `pat` Python would interleave `rep` between every
character; the sources only replace non-empty placeholders, and this model
leaves the string unchanged in that degenerate case.) -/
def replaceFuel (pat rep : List Char) : Nat → List Char → List Char
  | _, [] => []
  | 0, s => s
  | fuel + 1, a :: s =>
    if pat ≠ [] ∧ pat.isPrefixOf (a :: s) then
      rep ++ replaceFuel pat rep fuel ((a :: s).drop pat.length)
    else a :: replaceFuel pat rep fuel s

/-- Model of Python `str.replace(pat, rep)` for non-empty `pat`. -/
def pyReplace (s pat rep : List Char) : List Char :=
  replaceFuel pat rep s.length s

/-- Model of Python `substring in string`. -/
def containsSub (needle : List Char) : List Char → Bool
  | [] => needle.isEmpty
  | a :: l => needle.isPrefixOf (a :: l) || containsSub needle l

/-- Lookup in a Python dict modelled as an association list with unique keys
(`d.get(k)`). -/
def dictGet (d : List (List Char × List Char)) (k : List Char) :
    Option (List Char) :=
  match d with
  | [] => none
  | kv :: rest => if kv.1 = k then some kv.2 else dictGet rest k

/-- Model of Python `d[k] = v` on a dict as association list: replace in
place if the key exists, else append. -/
def dictInsert (d : List (List Char × List Char)) (k v : List Char) :
    List (List Char × List Char) :=
  match d with
  | [] => [(k, v)]
  | kv :: rest => if kv.1 = k then (k, v) :: rest else kv :: dictInsert rest k v

/-- Model of a chain `d.get(k1) or d.get(k2) or ... or ""`: the first value
that is present and non-empty, else the empty string.  (Python `or` skips
both `None` and `""`.) -/
def pyOrChain (d : List (List Char × List Char)) :
    List (List Char) → List Char
  | [] => []
  | k :: ks =>
    match dictGet d k with
    | some v => if v.isEmpty then pyOrChain d ks else v
    | none => pyOrChain d ks

/-! ## CSV/Ledger Manager — `src/core/csv_manager.py` -/

namespace CsvManager

/-- The `CSV_REPROGRAM_PREFIX` setting (`config/settings.py` line 76). -/
def CSV_REPROGRAM_PREFIX : List Char := "reprogram_".data

/-- The fixed `CSV_COLUMNS` setting (`config/settings.py` lines 72-75). -/
def CSV_COLUMNS : List (List Char) :=
  ["serial_number".data, "date_programmed".data, "firmware_version".data,
   "hardware_version".data, "region_code".data, "batch_id".data, "notes".data]

/-- The `CSVRow` dataclass (`csv_manager.py` lines 17-28).  `extra_columns`
is the row's dict of non-core columns, as an association list. -/
structure CSVRow where
  serial_number : List Char
  date_programmed : List Char := []
  firmware_version : List Char := []
  hardware_version : List Char := []
  region_code : List Char := []
  batch_id : List Char := []
  notes : List Char := []
  extra_columns : List (List Char × List Char) := []
deriving DecidableEq

/-- `CSVRow.is_programmed` (`csv_manager.py` lines 30-33):
`bool(self.date_programmed.strip())`. -/
def CSVRow.is_programmed (r : CSVRow) : Bool :=
  !(pyStrip r.date_programmed).isEmpty

/-- `CSVRow.reprogram_count` (`csv_manager.py` lines 35-41): the number of
`extra_columns` keys that start with the reprogram prefix. -/
def CSVRow.reprogram_count (r : CSVRow) : Nat :=
  (r.extra_columns.filter
    (fun kv => CSV_REPROGRAM_PREFIX.isPrefixOf kv.1)).length

/-- The mutable manager state relevant to the claims: the row list, the
accumulated column set and the selection cursor
(`csv_manager.py` lines 85-91). -/
structure CSVManagerState where
  rows : List CSVRow
  all_columns : List (List Char)
  selected_index : Option Nat
deriving DecidableEq

/-- `CSVManager.select_row` (`csv_manager.py` lines 248-269): bounds check,
no-op on re-selecting the same index, else move the cursor. -/
def select_row (st : CSVManagerState) (index : Nat) :
    CSVManagerState × Bool :=
  if index < st.rows.length then
    if st.selected_index = some index then (st, true)
    else ({ st with selected_index := some index }, true)
  else (st, false)

/-- Index scan of `CSVManager.select_next_unprogrammed` (`csv_manager.py`
lines 278-280): `for i, row in enumerate(self._rows)` starting at `s`,
return the index of the first row that is not programmed. -/
def firstUnprogrammedIdx : List CSVRow → Nat → Option Nat
  | [], _ => none
  | r :: rest, i =>
    if !r.is_programmed then some i else firstUnprogrammedIdx rest (i + 1)

/-- `CSVManager.select_next_unprogrammed` (`csv_manager.py` lines 271-283):
select the first row whose `date_programmed` is blank, if any. -/
def select_next_unprogrammed (st : CSVManagerState) :
    CSVManagerState × Bool :=
  match firstUnprogrammedIdx st.rows 0 with
  | some i => select_row st i
  | none => (st, false)

/-- Column accumulation in `CSVManager.load` (`csv_manager.py` lines
148-157): start from the core columns and append every unseen field name. -/
def buildColumns (fieldnames : List (List Char)) : List (List Char) :=
  fieldnames.foldl (fun acc col => if col ∈ acc then acc else acc ++ [col])
    CSV_COLUMNS

/-- Successful branch of `CSVManager.load` (`csv_manager.py` lines 130-174):
replace the rows and columns, clear the selection, then auto-select the next
unprogrammed row.  `rows` are the parsed CSV rows and `fieldnames` the header
row of the file. -/
def load (_prev : CSVManagerState) (fieldnames : List (List Char))
    (rows : List CSVRow) : CSVManagerState :=
  let st1 : CSVManagerState :=
    { rows := rows, all_columns := buildColumns fieldnames,
      selected_index := none }
  (select_next_unprogrammed st1).1

/-- `CSVManager._handle_reprogram` (`csv_manager.py` lines 350-372): compute
`count = reprogram_count + 1`, append the three `reprogram_<count>_*` columns
if missing, and archive the previous date/firmware plus a reason text. -/
def handle_reprogram (row : CSVRow) (all_columns : List (List Char)) :
    CSVRow × List (List Char) :=
  let count := row.reprogram_count + 1
  let date_col := CSV_REPROGRAM_PREFIX ++ natToChars count ++ "_date".data
  let fw_col := CSV_REPROGRAM_PREFIX ++ natToChars count ++ "_firmware".data
  let reason_col := CSV_REPROGRAM_PREFIX ++ natToChars count ++ "_reason".data
  let cols := [date_col, fw_col, reason_col].foldl
    (fun acc c => if c ∈ acc then acc else acc ++ [c]) all_columns
  let extras := dictInsert
    (dictInsert (dictInsert row.extra_columns date_col row.date_programmed)
      fw_col row.firmware_version)
    reason_col ("Reprogrammed (".data ++ natToChars count ++ ")".data)
  ({ row with extra_columns := extras }, cols)

/-- `CSVManager.update_selected_row` (`csv_manager.py` lines 300-348): on a
selected row, archive via `_handle_reprogram` when the row is already
programmed, then overwrite the metadata fields and, when `mark_programmed`,
stamp `now` (the formatted current date-time) into `date_programmed`. -/
def update_selected_row (st : CSVManagerState)
    (firmware_version hardware_version region_code batch_id notes : List Char)
    (mark_programmed : Bool) (now : List Char) : CSVManagerState × Bool :=
  match st.selected_index with
  | none => (st, false)
  | some i =>
    match st.rows[i]? with
    | none => (st, false)
    | some row =>
      let rc := if row.is_programmed then handle_reprogram row st.all_columns
        else (row, st.all_columns)
      let row2 : CSVRow :=
        { rc.1 with
          firmware_version := firmware_version,
          hardware_version := hardware_version,
          region_code := region_code,
          batch_id := batch_id,
          notes := notes,
          date_programmed :=
            if mark_programmed then now else rc.1.date_programmed }
      ({ st with rows := st.rows.set i row2, all_columns := rc.2 }, true)

end CsvManager

/-! ## Serial Number Ledger Manager — `src/FlashApp/core/serial_manager.py` -/

namespace SerialManager

/-- Numeric-version computation in `SerialManager.generate_serial_header`
(`serial_manager.py` lines 224-227): keep the digit characters of the
firmware-version string and, when fewer than 3 remain, pad on the right with
`'0'` to length 3 via `str.ljust`. -/
def numeric_version (firmware_version : List Char) : List Char :=
  let ds := firmware_version.filter Char.isDigit
  if ds.length < 3 then ljust ds 3 '0' else ds

/-- Content transformation of `SerialManager.generate_serial_header`
(`serial_manager.py` lines 229-238): substitute the serial-number,
firmware-version and numeric-version placeholders in the template text. -/
def generate_serial_header_content
    (template serial_number firmware_version : List Char) : List Char :=
  pyReplace
    (pyReplace (pyReplace template "SERIAL_NUMBER_PLACEHOLDER".data
        serial_number)
      "FIRMWARE_VERSION_PLACEHOLDER".data firmware_version)
    "NUMERIC_VERSION_PLACEHOLDER".data (numeric_version firmware_version)

/-- Modelled from the spec claim wording (for comparison with the code):
numeric version computed by stripping non-digits and LEFT-padding with zeros
to a minimum of 3 characters. -/
def claimed_numeric_version (firmware_version : List Char) : List Char :=
  let ds := firmware_version.filter Char.isDigit
  if ds.length < 3 then List.replicate (3 - ds.length) '0' ++ ds else ds

/-- Modelled from the spec claim wording: header content produced with the
left-padded numeric version. -/
def claimed_header_content
    (template serial_number firmware_version : List Char) : List Char :=
  pyReplace
    (pyReplace (pyReplace template "SERIAL_NUMBER_PLACEHOLDER".data
        serial_number)
      "FIRMWARE_VERSION_PLACEHOLDER".data firmware_version)
    "NUMERIC_VERSION_PLACEHOLDER".data (claimed_numeric_version firmware_version)

end SerialManager

/-! ## Label Generator — `src/label/label_generator.py` -/

namespace LabelGenerator

/-- Label geometry settings (`config/settings.py` lines 83-85). -/
def LABEL_WIDTH_MM : Nat := 75

def LABEL_HEIGHT_MM : Nat := 50

def LABEL_DPI : Nat := 300

/-- Model of `width_px = int(CONFIG.LABEL_WIDTH_MM / 25.4 * CONFIG.LABEL_DPI)`
(`label_generator.py` line 185).  `int()` on a positive float truncates; the
float value `75 / 25.4 * 300 ≈ 885.8268` is far from an integer boundary, so
the truncation agrees with exact rational arithmetic
`⌊75 · 300 · 10 / 254⌋`. -/
def width_px : Nat := LABEL_WIDTH_MM * LABEL_DPI * 10 / 254

/-- Model of `height_px = int(CONFIG.LABEL_HEIGHT_MM / 25.4 * CONFIG.LABEL_DPI)`
(`label_generator.py` line 186), value `⌊50 · 300 · 10 / 254⌋`. -/
def height_px : Nat := LABEL_HEIGHT_MM * LABEL_DPI * 10 / 254

/-- Size effect of `LabelGenerator._resize_image` (`label_generator.py`
lines 231-243, with the image library available): resize to the target
dimensions whenever the raster differs from them. -/
def resize_image (size : Nat × Nat) : Nat × Nat :=
  if size ≠ (width_px, height_px) then (width_px, height_px) else size

/-- Pixel dimensions of a successfully generated label as a function of the
dimensions the SVG renderer produced (`label_generator.py` lines 184-204):
the rendered raster is always resized to the computed target size. -/
def generate_label_dims (rendered : Nat × Nat) : Nat × Nat :=
  resize_image rendered

end LabelGenerator

/-! ## Verifier — `src/core/verification.py` -/

namespace Verification

/-- The `VerificationStatus` enum (`verification.py` lines 15-20). -/
inductive VerificationStatus
  | passed
  | failed
  | partialResult
  | error
deriving DecidableEq

/-- The `VerificationCheck` dataclass (`verification.py` lines 23-30). -/
structure VerificationCheck where
  name : List Char
  expected : List Char
  actual : List Char
  passed : Bool
  message : List Char
deriving DecidableEq

/-- The `VerificationResult` dataclass (`verification.py` lines 33-52),
restricted to the fields the claims are about. -/
structure VerificationResult where
  status : VerificationStatus
  message : List Char
  checks : List VerificationCheck
  sysinfo : List (List Char × List Char)
  netinfo : List (List Char × List Char)
deriving DecidableEq

/-- Pass condition of `VerificationResult.add_check` (`verification.py`
line 62): case-insensitive, whitespace-trimmed equality. -/
def add_check_passed (expected actual : List Char) : Bool :=
  (pyStrip expected).map Char.toLower == (pyStrip actual).map Char.toLower

/-- Build one check record as `add_check` does (`verification.py`
lines 54-70). -/
def mkCheck (name expected actual notFoundMsg : List Char) :
    VerificationCheck :=
  { name := name, expected := expected, actual := actual,
    passed := add_check_passed expected actual,
    message := if actual.isEmpty then notFoundMsg else [] }

/-- `Verifier.verify` (`verification.py` lines 91-159) as a function of the
parsed `SYSINFO`/`NETINFO` maps returned by the provisioner: an empty (or
absent, folded into empty) `sysinfo` yields the early `ERROR` result with no
checks; otherwise the four field checks are recorded (each looking up its
alias keys with Python `or` semantics) and the overall status and message
are derived from the pass/fail counts. -/
def verify (sysinfo netinfo : List (List Char × List Char))
    (serial_number region firmware_version hardware_version : List Char) :
    VerificationResult :=
  if sysinfo.isEmpty then
    { status := .error, message := "Failed to get SYSINFO from device".data,
      checks := [], sysinfo := [], netinfo := [] }
  else
    let sActual := pyOrChain sysinfo
      ["serial_number".data, "device_serial".data, "sn".data, "serial".data]
    let rActual := pyOrChain sysinfo ["region".data, "region_code".data]
    let fActual := pyOrChain sysinfo
      ["firmware_version".data, "fw_version".data, "firmware".data,
        "version".data]
    let hActual := pyOrChain sysinfo
      ["hardware_version".data, "hw_version".data, "hardware".data]
    let checks := [
      mkCheck "Serial Number".data serial_number sActual
        "Serial number not found in SYSINFO".data,
      mkCheck "Region".data region rActual
        "Region not found in SYSINFO".data,
      mkCheck "Firmware Version".data firmware_version fActual
        "Firmware version not found in SYSINFO".data,
      mkCheck "Hardware Version".data hardware_version hActual
        "Hardware version not found in SYSINFO".data]
    let passedCount := (checks.filter (fun c => c.passed)).length
    let failedCount := (checks.filter (fun c => !c.passed)).length
    if failedCount = 0 then
      { status := .passed,
        message := "All ".data ++ natToChars passedCount ++
          " checks passed".data,
        checks := checks, sysinfo := sysinfo, netinfo := netinfo }
    else if 0 < passedCount then
      { status := .partialResult,
        message := natToChars passedCount ++ " passed, ".data ++
          natToChars failedCount ++ " failed".data,
        checks := checks, sysinfo := sysinfo, netinfo := netinfo }
    else
      { status := .failed,
        message := "All ".data ++ natToChars failedCount ++
          " checks failed".data,
        checks := checks, sysinfo := sysinfo, netinfo := netinfo }

end Verification

/-! ## Firmware Uploader — `src/core/firmware_uploader.py` -/

namespace FirmwareUploader

/-- The `UploadStatus` enum (`firmware_uploader.py` lines 17-24). -/
inductive UploadStatus
  | success
  | failed
  | picotool_not_found
  | firmware_not_found
  | no_device
  | invalid_firmware
deriving DecidableEq

/-- The `UploadResult` dataclass (`firmware_uploader.py` lines 27-38),
without the captured process output (irrelevant to the claims). -/
structure UploadResult where
  status : UploadStatus
  message : List Char
  exit_code : Int
deriving DecidableEq

/-- The `success` property of `UploadResult` (`firmware_uploader.py`
lines 36-38). -/
def UploadResult.success (r : UploadResult) : Bool :=
  r.status == UploadStatus.success

/-- Observable filesystem facts about a firmware path, as queried by
`verify_firmware`: existence, regular-file flag, lowercased extension and
size in bytes. -/
structure FirmwareFile where
  existsOnDisk : Bool
  is_file : Bool
  suffixLower : List Char
  size : Nat

/-- The `FIRMWARE_EXTENSIONS` setting (`config/settings.py` line 55). -/
def FIRMWARE_EXTENSIONS : List (List Char) :=
  [".elf".data, ".hex".data, ".uf2".data]

/-- `FirmwareUploader.verify_firmware` (`firmware_uploader.py` lines
102-132).  Message texts are kept without the interpolated path/size. -/
def verify_firmware (fw : FirmwareFile) : Bool × List Char :=
  if !fw.existsOnDisk then (false, "Firmware file not found".data)
  else if !fw.is_file then (false, "Not a file".data)
  else if !(FIRMWARE_EXTENSIONS.contains fw.suffixLower) then
    (false, "Invalid firmware extension".data)
  else if fw.size < 100 then (false, "Firmware file too small".data)
  else if fw.size > 16 * 1024 * 1024 then
    (false, "Firmware file too large".data)
  else (true, "Firmware valid".data)

/-- Outcome of the external `picotool load` subprocess, for the paths where
`upload` actually invokes it. -/
inductive PicotoolRun
  | completed (exit_code : Int) (stdoutText stderrText : List Char)
  | timedOut
  | raisedError (msg : List Char)

/-- `FirmwareUploader.upload` (`firmware_uploader.py` lines 134-226) as a
function of the observable environment.  Returns the result together with a
flag recording whether the external tool was invoked. -/
def upload (picotoolExists : Bool) (fw : FirmwareFile) (run : PicotoolRun) :
    UploadResult × Bool :=
  if !picotoolExists then
    ({ status := .picotool_not_found, message := "picotool not found".data,
       exit_code := 0 }, false)
  else
    let vr := verify_firmware fw
    if !vr.1 then
      ({ status := .firmware_not_found, message := vr.2, exit_code := 0 },
        false)
    else
      match run with
      | .completed code out err =>
        if code = 0 then
          ({ status := .success,
             message := "Firmware uploaded successfully".data,
             exit_code := code }, true)
        else
          let error_msg := if err.isEmpty then out else err
          if containsSub "No accessible RP2040".data error_msg then
            ({ status := .no_device,
               message := "No RP2040 device found in BOOTSEL mode".data,
               exit_code := code }, true)
          else
            ({ status := .failed, message := "Upload failed".data,
               exit_code := code }, true)
      | .timedOut =>
        ({ status := .failed,
           message := "Firmware upload timed out (60s)".data,
           exit_code := 0 }, true)
      | .raisedError _ =>
        ({ status := .failed, message := "Error during upload".data,
           exit_code := 0 }, true)

end FirmwareUploader

/-! ## Main Window workflow — `src/gui/main_window.py` -/

namespace Workflow

/-- The `WorkflowState` enum (`main_window.py` lines 38-51). -/
inductive WorkflowState
  | IDLE
  | WAITING_FOR_DEVICE
  | UPLOADING_FIRMWARE
  | WAITING_FOR_SERIAL
  | PROVISIONING
  | VERIFYING
  | GENERATING_LABEL
  | GENERATING_REPORT
  | UPDATING_CSV
  | COMPLETED
  | ERROR
  | STOPPED
deriving DecidableEq

/-- How a `_run_workflow` invocation ends: posting `complete`, posting
`error`, or returning early because the stop flag was observed. -/
inductive WorkflowOutcome
  | completed
  | errored (msg : List Char)
  | stoppedEarly
deriving DecidableEq

/-- Observable environment of one `_run_workflow` run: the stop flag as
sampled at the k-th of the seven inter-step checks, and the outcome of each
step's underlying operation. -/
structure WorkflowEnv where
  stopRequested : Nat → Bool
  uploadSuccess : Bool
  uploadMessage : List Char
  serialPort : Option (List Char)
  provisioningSuccess : Bool
  provisioningMessage : List Char
  portAfterReboot : Option (List Char)
  verificationSuccess : Bool
  labelSuccess : Bool
  csvLoaded : Bool
  csvUpdateOk : Bool
  csvSaveOk : Bool

/-- Trace of one `_run_workflow` run: the workflow states posted to the UI
queue (in order), whether `update_selected_row` and `save` were invoked on
the ledger, and the outcome. -/
structure WorkflowRun where
  states : List WorkflowState
  csvUpdated : Bool
  csvSaved : Bool
  outcome : WorkflowOutcome

/-- `MainWindow._run_workflow` (`main_window.py` lines 526-729) as a trace
function over the observable environment.  Failures at upload, serial-port
wait, provisioning, reboot-reconnect and verification raise and are caught
by the surrounding handler, which posts the `error` message; label failures
are non-fatal; the ledger is touched only in the `UPDATING_CSV` step. -/
def run_workflow (env : WorkflowEnv) : WorkflowRun :=
  if env.stopRequested 0 then ⟨[], false, false, .stoppedEarly⟩ else
  let s1 := [WorkflowState.UPLOADING_FIRMWARE]
  if !env.uploadSuccess then
    ⟨s1, false, false,
      .errored ("Firmware upload failed: ".data ++ env.uploadMessage)⟩ else
  if env.stopRequested 1 then ⟨s1, false, false, .stoppedEarly⟩ else
  let s2 := s1 ++ [WorkflowState.WAITING_FOR_SERIAL]
  match env.serialPort with
  | none => ⟨s2, false, false,
      .errored "Serial port did not appear after firmware upload".data⟩
  | some _ =>
  if env.stopRequested 2 then ⟨s2, false, false, .stoppedEarly⟩ else
  let s3 := s2 ++ [WorkflowState.PROVISIONING]
  if !env.provisioningSuccess then
    ⟨s3, false, false,
      .errored ("Provisioning failed: ".data ++ env.provisioningMessage)⟩ else
  if env.stopRequested 3 then ⟨s3, false, false, .stoppedEarly⟩ else
  let s4 := s3 ++ [WorkflowState.VERIFYING]
  match env.portAfterReboot with
  | none => ⟨s4, false, false,
      .errored "Serial port did not reappear after reboot".data⟩
  | some _ =>
  if !env.verificationSuccess then
    ⟨s4, false, false, .errored "Verification failed".data⟩ else
  if env.stopRequested 4 then ⟨s4, false, false, .stoppedEarly⟩ else
  let s5 := s4 ++ [WorkflowState.GENERATING_LABEL]
  if env.stopRequested 5 then ⟨s5, false, false, .stoppedEarly⟩ else
  let s6 := s5 ++ [WorkflowState.GENERATING_REPORT]
  if env.stopRequested 6 then ⟨s6, false, false, .stoppedEarly⟩ else
  let s7 := s6 ++ [WorkflowState.UPDATING_CSV]
  ⟨s7 ++ [WorkflowState.COMPLETED], env.csvLoaded,
    env.csvLoaded && env.csvUpdateOk, .completed⟩

/-- Terminal workflow state after the queued messages are drained: the
`error` handler moves the UI to `ERROR`, normal completion returns the UI to
`IDLE` (after `COMPLETED` was posted), and a stop leads to `STOPPED`
(`main_window.py` lines 731-763). -/
def WorkflowRun.terminalState (r : WorkflowRun) : WorkflowState :=
  match r.outcome with
  | .errored _ => WorkflowState.ERROR
  | .completed => WorkflowState.IDLE
  | .stoppedEarly => WorkflowState.STOPPED

end Workflow

/-! ## CLI Orchestrator deploy step — `src/FlashApp/flasher_core.py` -/

namespace FlasherCore

/-- Result triple of `monitor_serial_port` (`flasher_core.py` lines
102-174): the verification flag and the serial/firmware strings detected in
the boot banner, when any. -/
structure MonitorResult where
  verified : Bool
  detected_serial : Option (List Char)
  detected_firmware : Option (List Char)
deriving DecidableEq

/-- Observable environment of one `deploy_firmware` call
(`flasher_core.py` lines 413-527): the build artefacts found, the outcome of
each `flash_with_picotool` invocation, and the port-wait / boot-banner
monitor outcomes of the ELF attempt and of the UF2 fallback attempt.  An
`elfPath` of `none` covers both "no ELF found" and "path does not exist". -/
structure DeployEnv where
  uf2Path : Option (List Char)
  elfPath : Option (List Char)
  elfFlashOk : Bool
  uf2FlashOk : Bool
  portElf : Option (List Char)
  monitorElf : MonitorResult
  portUf2 : Option (List Char)
  monitorUf2 : MonitorResult

/-- Verification tail shared by both attempts of `deploy_firmware`
(`flasher_core.py` lines 432-473 and 480-521): skip on `--skip-verify`; a
missing port is a soft success; a mismatching detected serial fails unless
`--reprogram`; everything else (verified, or timeout without a contradicting
serial) succeeds. -/
def verifyTail (serial_number : Option (List Char)) (verify reprogram : Bool)
    (port : Option (List Char)) (monitor : MonitorResult) : Bool :=
  if !verify then true
  else
    match port with
    | none => true
    | some _ =>
      if monitor.verified then true
      else
        if pyTruthy monitor.detected_serial && pyTruthy serial_number &&
            monitor.detected_serial != serial_number then
          (if reprogram then true else false)
        else true

/-- `deploy_firmware` (`flasher_core.py` lines 413-527) as a function of the
observable environment: require a UF2, prefer flashing the ELF via the
external tool (falling through to the UF2 on flash failure), and apply the
verification tail of the attempt that flashed successfully. -/
def deploy_firmware (env : DeployEnv) (serial_number : Option (List Char))
    (verify reprogram : Bool) : Bool :=
  match env.uf2Path with
  | none => false
  | some _ =>
    let elfResult : Option Bool :=
      match env.elfPath with
      | none => none
      | some _ =>
        if env.elfFlashOk then
          some (verifyTail serial_number verify reprogram env.portElf
            env.monitorElf)
        else none
    match elfResult with
    | some r => r
    | none =>
      if env.uf2FlashOk then
        verifyTail serial_number verify reprogram env.portUf2 env.monitorUf2
      else false

end FlasherCore

namespace UF2Tools

/-! ### Structural lemmas about the embedding -/

theorem insertAt_length (l : List Nat) (i : Nat) (m : List Nat) :
    (insertAt l i m).length = l.length + m.length := by
  simp only [insertAt, List.length_append, List.length_take, List.length_drop]
  omega

theorem insertAt_shift (A B m : List Nat) (p : Nat) (hp : A.length ≤ p) :
    insertAt (A ++ B) p m = A ++ insertAt B (p - A.length) m := by
  unfold insertAt
  rw [List.take_append_eq_append_take, List.drop_append_eq_append_drop,
      List.take_of_length_le hp, List.drop_eq_nil_of_le hp]
  simp [List.append_assoc]

theorem foldl_insert_length (m : List Nat) (ps : List Nat) : ∀ (acc : List Nat),
    (ps.foldl (fun acc i => insertAt acc i m) acc).length =
      acc.length + ps.length * m.length := by
  induction ps with
  | nil => simp
  | cons p ps ih =>
    intro acc
    rw [List.foldl_cons, ih, insertAt_length, List.length_cons]
    ring

theorem foldl_insert_shift (m A : List Nat) (ps : List Nat) : ∀ (B : List Nat),
    (∀ p ∈ ps, A.length ≤ p) →
    ps.foldl (fun acc i => insertAt acc i m) (A ++ B) =
      A ++ (ps.map (fun p => p - A.length)).foldl (fun acc i => insertAt acc i m) B := by
  induction ps with
  | nil => intro B _; rfl
  | cons p ps ih =>
    intro B h
    rw [List.foldl_cons, List.map_cons, List.foldl_cons,
        insertAt_shift A B m p (h p (List.mem_cons_self p ps))]
    exact ih (insertAt B (p - A.length) m) (fun q hq => h q (List.mem_cons_of_mem p hq))

theorem pythonRange_length (L : Nat) :
    (pythonRange 10240 L 10240).length = (L - 1) / 10240 := by
  simp only [pythonRange, List.length_map, List.length_range]
  rcases le_or_lt 10240 L with h | h
  · have e : L - 10240 + 10240 - 1 = L - 1 := by omega
    rw [e]
  · have e : L - 10240 + 10240 - 1 = 10239 := by omega
    rw [e, Nat.div_eq_of_lt (by omega), Nat.div_eq_of_lt (by omega)]

theorem pythonRange_mem_ge (L p : Nat) (hp : p ∈ pythonRange 10240 L 10240) :
    10240 ≤ p := by
  simp only [pythonRange, List.mem_map, List.mem_range] at hp
  obtain ⟨k, _, rfl⟩ := hp
  omega

theorem embedCore_base (data serial : List Nat) (h : data.length ≤ 10240) :
    embedCore data serial = data ++ markerBytes serial := by
  have hlen : (pythonRange 10240 data.length 10240).length = 0 := by
    rw [pythonRange_length, Nat.div_eq_of_lt (by omega)]
  rw [List.length_eq_zero] at hlen
  simp [embedCore, hlen]

theorem pythonRange_shift_general (c : Nat) (hc : 0 < c) (L : Nat) (h : c < L) :
    (pythonRange c L c).map (fun p => p - c) =
      0 :: pythonRange c (L - c) c := by
  unfold pythonRange
  rw [List.map_map]
  have e1 : L - c + c - 1 = (L - c - 1) + c := by omega
  have e2 : L - c - c + c - 1 = L - c - 1 ∨
      (L - c - c + c - 1 = c - 1 ∧ L - c - 1 < c) := by omega
  have hn : (L - c + c - 1) / c = (L - c - c + c - 1) / c + 1 := by
    rw [e1, Nat.add_div_right _ hc]
    rcases e2 with e | ⟨e, hlt⟩
    · rw [e]
    · rw [e, Nat.div_eq_of_lt hlt, Nat.div_eq_of_lt (by omega)]
  have hf : ((fun p => p - c) ∘ fun k : Nat => c + k * c) =
      (fun k : Nat => k * c) := by
    funext k
    show c + k * c - c = k * c
    rw [Nat.add_sub_cancel_left]
  have hg : ((fun k : Nat => k * c) ∘ Nat.succ) =
      (fun k : Nat => c + k * c) := by
    funext k
    show Nat.succ k * c = c + k * c
    rw [Nat.succ_mul, Nat.add_comm]
  rw [hn, hf, List.range_succ_eq_map, List.map_cons, List.map_map, hg,
      Nat.zero_mul]

theorem pythonRange_shift (L : Nat) (h : 10240 < L) :
    (pythonRange 10240 L 10240).map (fun p => p - 10240) =
      0 :: pythonRange 10240 (L - 10240) 10240 :=
  pythonRange_shift_general 10240 (by norm_num) L h

theorem embedCore_step (data serial : List Nat) (h : 10240 < data.length) :
    embedCore data serial =
      data.take 10240 ++ markerBytes serial ++ embedCore (data.drop 10240) serial := by
  have hA : (data.take 10240).length = 10240 := by
    simp only [List.length_take]
    omega
  have hsplit : data ++ markerBytes serial =
      data.take 10240 ++ (data.drop 10240 ++ markerBytes serial) := by
    rw [← List.append_assoc, List.take_append_drop]
  have hge : ∀ p ∈ (pythonRange 10240 data.length 10240).reverse,
      (data.take 10240).length ≤ p := by
    intro p hp
    rw [List.mem_reverse] at hp
    rw [hA]
    exact pythonRange_mem_ge _ p hp
  have hmap : (pythonRange 10240 data.length 10240).reverse.map
      (fun p => p - (data.take 10240).length) =
      (pythonRange 10240 (data.length - 10240) 10240).reverse ++ [0] := by
    rw [hA, List.map_reverse, pythonRange_shift _ h, List.reverse_cons]
  have hdef : embedCore (data.drop 10240) serial =
      (pythonRange 10240 (data.length - 10240) 10240).reverse.foldl
        (fun acc i => insertAt acc i (markerBytes serial))
        (data.drop 10240 ++ markerBytes serial) := by
    unfold embedCore
    rw [List.length_drop]
  rw [hdef]
  unfold embedCore
  rw [hsplit, foldl_insert_shift _ _ _ _ hge, hmap, List.foldl_append]
  simp only [List.foldl_cons, List.foldl_nil]
  rw [List.append_assoc]
  rfl

/-! ### Lemmas about marker extraction -/

theorem takeWhile_append_all (p : Nat → Bool) (l₁ l₂ : List Nat)
    (h : ∀ b ∈ l₁, p b = true) :
    (l₁ ++ l₂).takeWhile p = l₁ ++ l₂.takeWhile p := by
  induction l₁ with
  | nil => rfl
  | cons a t ih =>
    rw [List.cons_append, List.takeWhile_cons, h a (List.mem_cons_self a t),
        ih (fun b hb => h b (List.mem_cons_of_mem a hb)), List.cons_append]
    rw [if_pos rfl]

theorem extract_append_dfree (l₁ l₂ : List Nat) (h : ∀ b ∈ l₁, b ≠ 68) :
    extract_serial_from_uf2 (l₁ ++ l₂) = extract_serial_from_uf2 l₂ := by
  induction l₁ with
  | nil => rw [List.nil_append]
  | cons a t ih =>
    have ha : a ≠ 68 := h a (List.mem_cons_self a t)
    have h68 : ((68 : Nat) == a) = false :=
      beq_eq_false_iff_ne.mpr (fun hh => ha hh.symm)
    have hpre : devicePrefixBytes.isPrefixOf (a :: (t ++ l₂)) = false := by
      show List.isPrefixOf (68 :: [69, 86, 73, 67, 69, 95, 73, 68, 58]) (a :: (t ++ l₂)) = false
      rw [List.isPrefixOf, h68, Bool.false_and]
    rw [List.cons_append]
    rw [extract_serial_from_uf2, hpre]
    exact ih (fun b hb => h b (List.mem_cons_of_mem a hb))

theorem extract_marker (serial rest : List Nat) (hne : serial ≠ [])
    (hc : ∀ b ∈ serial, b ≠ 58) :
    extract_serial_from_uf2 (markerBytes serial ++ rest) = some serial := by
  have hform : markerBytes serial ++ rest =
      68 :: 69 :: 86 :: 73 :: 67 :: 69 :: 95 :: 73 :: 68 :: 58 ::
        (serial ++ (58 :: 69 :: 78 :: 68 :: rest)) := by
    simp [markerBytes, devicePrefixBytes, endSuffixBytes]
  have hcap : ((serial ++ (58 :: 69 :: 78 :: 68 :: rest)).takeWhile
      (fun b => b != 58)) = serial := by
    rw [takeWhile_append_all (fun b => b != 58) serial _
        (fun b hb => by simpa using hc b hb)]
    simp [List.takeWhile_cons]
  rw [hform, extract_serial_from_uf2]
  simp only [devicePrefixBytes, List.isPrefixOf, List.drop, hcap, beq_self_eq_true,
    Bool.true_and, if_true]
  rw [if_pos]
  constructor
  · exact hne
  · rw [List.drop_left]
    simp [endSuffixBytes, List.isPrefixOf]

/-! ### Lemmas about marker occurrence counting -/

theorem markerBytes_ne_nil (serial : List Nat) : markerBytes serial ≠ [] := by
  simp [markerBytes, devicePrefixBytes]

theorem isPrefixOf_length_le {pat l : List Nat} (h : pat.isPrefixOf l = true) :
    pat.length ≤ l.length :=
  (List.isPrefixOf_iff_prefix.mp h).length_le

theorem countOcc_short (pat l : List Nat) (h : l.length < pat.length) :
    countOcc pat l = 0 := by
  induction l with
  | nil => rfl
  | cons a t ih =>
    have ht : t.length < pat.length := by
      simp only [List.length_cons] at h
      omega
    have hp : pat.isPrefixOf (a :: t) = false := by
      cases hval : pat.isPrefixOf (a :: t)
      · rfl
      · exfalso
        have hle := isPrefixOf_length_le hval
        simp only [List.length_cons] at hle h
        omega
    simp only [countOcc, hp, Bool.false_eq_true, if_false, ih ht]

theorem countOcc_eq_one_self (m : List Nat) (hne : m ≠ []) : countOcc m m = 1 := by
  cases m with
  | nil => exact absurd rfl hne
  | cons a t =>
    have hp : (a :: t).isPrefixOf (a :: t) = true :=
      List.isPrefixOf_iff_prefix.mpr (List.prefix_refl _)
    simp only [countOcc, hp, if_true, countOcc_short (a :: t) t (by simp)]

theorem countOcc_cons (pat : List Nat) (a : Nat) (l : List Nat) :
    countOcc pat (a :: l) =
      (if pat.isPrefixOf (a :: l) then 1 else 0) + countOcc pat l := rfl

theorem countOcc_dfree_append (pat l₁ l₂ : List Nat) (hpat : pat.head? = some 68)
    (h : ∀ b ∈ l₁, b ≠ 68) :
    countOcc pat (l₁ ++ l₂) = countOcc pat l₂ := by
  cases pat with
  | nil => exact absurd hpat (by simp)
  | cons p pt =>
    have hp68 : p = 68 := by simpa using hpat
    subst hp68
    induction l₁ with
    | nil => rw [List.nil_append]
    | cons a t ih =>
      have ha : a ≠ 68 := h a (List.mem_cons_self a t)
      have h68 : ((68 : Nat) == a) = false :=
        beq_eq_false_iff_ne.mpr (fun hh => ha hh.symm)
      have hp : (68 :: pt).isPrefixOf (a :: (t ++ l₂)) = false := by
        rw [List.isPrefixOf, h68, Bool.false_and]
      rw [List.cons_append]
      simp only [countOcc, hp, Bool.false_eq_true, if_false]
      simpa using ih (fun b hb => h b (List.mem_cons_of_mem a hb))

theorem marker_tail_not_prefix (serial d Z : List Nat)
    (hd : d ≠ []) (hdf : ∀ b ∈ d, b ≠ 68) :
    (69 :: 86 :: 73 :: 67 :: 69 :: 95 :: 73 :: 68 :: 58 ::
        (serial ++ [58, 69, 78, 68])).isPrefixOf
      (d ++ (markerBytes serial ++ Z)) = false := by
  cases hval : (69 :: 86 :: 73 :: 67 :: 69 :: 95 :: 73 :: 68 :: 58 ::
      (serial ++ [58, 69, 78, 68])).isPrefixOf (d ++ (markerBytes serial ++ Z))
  · rfl
  · exfalso
    rw [List.isPrefixOf_iff_prefix] at hval
    obtain ⟨t, ht⟩ := hval
    have hd0 : 0 < d.length := List.length_pos.mpr hd
    have hm0 : (markerBytes serial ++ Z)[0]? = some 68 := rfl
    have hm1 : (markerBytes serial ++ Z)[1]? = some 69 := rfl
    rcases le_or_lt 8 d.length with h8 | h8
    · -- index 7 of the left side is the byte 68, but lands inside the 68-free d
      have lhs7 : ((69 :: 86 :: 73 :: 67 :: 69 :: 95 :: 73 :: 68 :: 58 ::
          (serial ++ [58, 69, 78, 68])) ++ t)[7]? = some 68 := rfl
      rw [ht, List.getElem?_append_left (by omega)] at lhs7
      exact hdf 68 (List.getElem?_mem lhs7) rfl
    · -- 1 ≤ d.length ≤ 7: index d.length hits the head 68 of the marker copy,
      -- while positions 1-6 of the left side are not 68 and position 7 forces
      -- index 8, where the left side holds 58 but the marker copy holds 69.
      have hcases : d.length = 1 ∨ d.length = 2 ∨ d.length = 3 ∨ d.length = 4 ∨
          d.length = 5 ∨ d.length = 6 ∨ d.length = 7 := by omega
      rcases hcases with e | e | e | e | e | e | e
      · have lhs : ((69 :: 86 :: 73 :: 67 :: 69 :: 95 :: 73 :: 68 :: 58 ::
            (serial ++ [58, 69, 78, 68])) ++ t)[1]? = some 86 := rfl
        rw [ht, List.getElem?_append_right (by omega), e] at lhs
        rw [show 1 - 1 = 0 from rfl, hm0] at lhs
        exact absurd (Option.some.inj lhs) (by norm_num)
      · have lhs : ((69 :: 86 :: 73 :: 67 :: 69 :: 95 :: 73 :: 68 :: 58 ::
            (serial ++ [58, 69, 78, 68])) ++ t)[2]? = some 73 := rfl
        rw [ht, List.getElem?_append_right (by omega), e] at lhs
        rw [show 2 - 2 = 0 from rfl, hm0] at lhs
        exact absurd (Option.some.inj lhs) (by norm_num)
      · have lhs : ((69 :: 86 :: 73 :: 67 :: 69 :: 95 :: 73 :: 68 :: 58 ::
            (serial ++ [58, 69, 78, 68])) ++ t)[3]? = some 67 := rfl
        rw [ht, List.getElem?_append_right (by omega), e] at lhs
        rw [show 3 - 3 = 0 from rfl, hm0] at lhs
        exact absurd (Option.some.inj lhs) (by norm_num)
      · have lhs : ((69 :: 86 :: 73 :: 67 :: 69 :: 95 :: 73 :: 68 :: 58 ::
            (serial ++ [58, 69, 78, 68])) ++ t)[4]? = some 69 := rfl
        rw [ht, List.getElem?_append_right (by omega), e] at lhs
        rw [show 4 - 4 = 0 from rfl, hm0] at lhs
        exact absurd (Option.some.inj lhs) (by norm_num)
      · have lhs : ((69 :: 86 :: 73 :: 67 :: 69 :: 95 :: 73 :: 68 :: 58 ::
            (serial ++ [58, 69, 78, 68])) ++ t)[5]? = some 95 := rfl
        rw [ht, List.getElem?_append_right (by omega), e] at lhs
        rw [show 5 - 5 = 0 from rfl, hm0] at lhs
        exact absurd (Option.some.inj lhs) (by norm_num)
      · have lhs : ((69 :: 86 :: 73 :: 67 :: 69 :: 95 :: 73 :: 68 :: 58 ::
            (serial ++ [58, 69, 78, 68])) ++ t)[6]? = some 73 := rfl
        rw [ht, List.getElem?_append_right (by omega), e] at lhs
        rw [show 6 - 6 = 0 from rfl, hm0] at lhs
        exact absurd (Option.some.inj lhs) (by norm_num)
      · have lhs : ((69 :: 86 :: 73 :: 67 :: 69 :: 95 :: 73 :: 68 :: 58 ::
            (serial ++ [58, 69, 78, 68])) ++ t)[8]? = some 58 := by simp
        rw [ht, List.getElem?_append_right (by omega), e] at lhs
        rw [show 8 - 7 = 1 from rfl, hm1] at lhs
        exact absurd (Option.some.inj lhs) (by norm_num)

theorem countOcc_marker_cons (serial d Z : List Nat)
    (hs68 : ∀ b ∈ serial, b ≠ 68) (hd : d ≠ []) (hdf : ∀ b ∈ d, b ≠ 68) :
    countOcc (markerBytes serial)
        (markerBytes serial ++ (d ++ (markerBytes serial ++ Z))) =
      1 + countOcc (markerBytes serial) (d ++ (markerBytes serial ++ Z)) := by
  have hform : markerBytes serial ++ (d ++ (markerBytes serial ++ Z)) =
      68 :: 69 :: 86 :: 73 :: 67 :: 69 :: 95 :: 73 :: 68 :: 58 ::
        (serial ++ (58 :: 69 :: 78 :: 68 :: (d ++ (markerBytes serial ++ Z)))) := by
    simp [markerBytes, devicePrefixBytes, endSuffixBytes]
  have hhead : (markerBytes serial).head? = some 68 := rfl
  have hp1 : (markerBytes serial).isPrefixOf
      (markerBytes serial ++ (d ++ (markerBytes serial ++ Z))) = true :=
    List.isPrefixOf_iff_prefix.mpr (List.prefix_append _ _)
  rw [hform] at hp1
  rw [hform, countOcc_cons, hp1, if_pos rfl]
  have e7 : (69 : Nat) :: 86 :: 73 :: 67 :: 69 :: 95 :: 73 :: 68 :: 58 ::
      (serial ++ (58 :: 69 :: 78 :: 68 :: (d ++ (markerBytes serial ++ Z)))) =
      [69, 86, 73, 67, 69, 95, 73] ++ (68 :: 58 ::
        (serial ++ (58 :: 69 :: 78 :: 68 :: (d ++ (markerBytes serial ++ Z))))) := rfl
  rw [e7, countOcc_dfree_append _ _ _ hhead (by decide)]
  have hp2 : (markerBytes serial).isPrefixOf (68 :: 58 ::
      (serial ++ (58 :: 69 :: 78 :: 68 :: (d ++ (markerBytes serial ++ Z))))) = false := by
    simp [markerBytes, devicePrefixBytes, List.isPrefixOf]
  rw [countOcc_cons, hp2, if_neg (by simp)]
  have e58 : (58 : Nat) ::
      (serial ++ (58 :: 69 :: 78 :: 68 :: (d ++ (markerBytes serial ++ Z)))) =
      [58] ++ (serial ++ (58 :: 69 :: 78 :: 68 :: (d ++ (markerBytes serial ++ Z)))) := rfl
  rw [e58, countOcc_dfree_append _ _ _ hhead (by decide),
      countOcc_dfree_append _ _ _ hhead hs68]
  have e3 : (58 : Nat) :: 69 :: 78 :: 68 :: (d ++ (markerBytes serial ++ Z)) =
      [58, 69, 78] ++ (68 :: (d ++ (markerBytes serial ++ Z))) := rfl
  rw [e3, countOcc_dfree_append _ _ _ hhead (by decide)]
  have hp3 : (markerBytes serial).isPrefixOf
      (68 :: (d ++ (markerBytes serial ++ Z))) = false := by
    have hstep : (markerBytes serial).isPrefixOf
        (68 :: (d ++ (markerBytes serial ++ Z))) =
        (69 :: 86 :: 73 :: 67 :: 69 :: 95 :: 73 :: 68 :: 58 ::
          (serial ++ [58, 69, 78, 68])).isPrefixOf (d ++ (markerBytes serial ++ Z)) := by
      simp [markerBytes, devicePrefixBytes, endSuffixBytes, List.isPrefixOf]
    rw [hstep]
    exact marker_tail_not_prefix serial d Z hd hdf
  rw [countOcc_cons, hp3, if_neg (by simp)]
  omega

theorem embedCore_length (data serial : List Nat) :
    (embedCore data serial).length =
      data.length + ((data.length - 1) / 10240 + 1) * (markerBytes serial).length := by
  unfold embedCore
  rw [foldl_insert_length, List.length_append, List.length_reverse,
      pythonRange_length]
  ring

theorem countOcc_embedCore_aux (n : Nat) : ∀ (data serial : List Nat),
    data.length ≤ n → (∀ b ∈ data, b ≠ 68) → (∀ b ∈ serial, b ≠ 68) →
    countOcc (markerBytes serial) (embedCore data serial) =
      (data.length - 1) / 10240 + 1 := by
  induction n with
  | zero =>
    intro data serial hlen hD hs
    have hhead : (markerBytes serial).head? = some 68 := rfl
    rw [embedCore_base data serial (by omega),
        countOcc_dfree_append _ _ _ hhead hD,
        countOcc_eq_one_self _ (markerBytes_ne_nil serial),
        Nat.div_eq_of_lt (by omega)]
  | succ n ih =>
    intro data serial hlen hD hs
    have hhead : (markerBytes serial).head? = some 68 := rfl
    rcases le_or_lt data.length 10240 with hl | hl
    · rw [embedCore_base data serial hl,
          countOcc_dfree_append _ _ _ hhead hD,
          countOcc_eq_one_self _ (markerBytes_ne_nil serial),
          Nat.div_eq_of_lt (by omega)]
    · have hdropD : ∀ b ∈ data.drop 10240, b ≠ 68 :=
        fun b hb => hD b (List.drop_subset _ _ hb)
      have hdropne : data.drop 10240 ≠ [] :=
        List.length_pos.mp (by rw [List.length_drop]; omega)
      have htakeD : ∀ b ∈ data.take 10240, b ≠ 68 :=
        fun b hb => hD b (List.take_subset _ _ hb)
      obtain ⟨d, Z, hE, hdne, hdD⟩ :
          ∃ d Z, embedCore (data.drop 10240) serial =
              d ++ (markerBytes serial ++ Z) ∧
            d ≠ [] ∧ (∀ b ∈ d, b ≠ 68) := by
        rcases le_or_lt (data.drop 10240).length 10240 with h2 | h2
        · refine ⟨data.drop 10240, [], ?_, hdropne, hdropD⟩
          rw [embedCore_base _ _ h2]
          simp
        · refine ⟨(data.drop 10240).take 10240,
            embedCore ((data.drop 10240).drop 10240) serial, ?_, ?_, ?_⟩
          · rw [embedCore_step _ _ h2, List.append_assoc]
          · apply List.length_pos.mp
            simp only [List.length_take, List.length_drop]
            omega
          · exact fun b hb => hdropD b (List.take_subset _ _ hb)
      rw [embedCore_step data serial hl, List.append_assoc,
          countOcc_dfree_append _ _ _ hhead htakeD, hE,
          countOcc_marker_cons serial d Z hs hdne hdD, ← hE,
          ih (data.drop 10240) serial (by rw [List.length_drop]; omega) hdropD hs,
          List.length_drop]
      have harith : (data.length - 1) / 10240 =
          (data.length - 10240 - 1) / 10240 + 1 := by
        have e : data.length - 1 = (data.length - 10240 - 1) + 10240 := by omega
        rw [e, Nat.add_div_right _ (by norm_num)]
      rw [harith]
      set q := (data.length - 10240 - 1) / 10240 with hq
      omega

theorem countOcc_embedCore (data serial : List Nat)
    (hD : ∀ b ∈ data, b ≠ 68) (hs : ∀ b ∈ serial, b ≠ 68) :
    countOcc (markerBytes serial) (embedCore data serial) =
      (data.length - 1) / 10240 + 1 :=
  countOcc_embedCore_aux data.length data serial (le_refl _) hD hs

theorem extract_embedCore (data serial : List Nat)
    (hD : ∀ b ∈ data, b ≠ 68) (hne : serial ≠ [])
    (hcolon : ∀ b ∈ serial, b ≠ 58) :
    extract_serial_from_uf2 (embedCore data serial) = some serial := by
  rcases le_or_lt data.length 10240 with hl | hl
  · rw [embedCore_base data serial hl, extract_append_dfree data _ hD]
    have : markerBytes serial = markerBytes serial ++ [] := by simp
    rw [this, extract_marker serial [] hne hcolon]
  · rw [embedCore_step data serial hl, List.append_assoc,
        extract_append_dfree _ _ (fun b hb => hD b (List.take_subset _ _ hb)),
        extract_marker _ _ hne hcolon]

end UF2Tools

namespace CsvManager

/-! ### Lemmas about the selection scan -/

theorem firstUnprogrammedIdx_none_iff (l : List CSVRow) : ∀ (s : Nat),
    firstUnprogrammedIdx l s = none ↔ ∀ r ∈ l, r.is_programmed = true := by
  induction l with
  | nil => intro s; simp [firstUnprogrammedIdx]
  | cons r rest ih =>
    intro s
    by_cases hp : r.is_programmed
    · simp only [firstUnprogrammedIdx, hp, Bool.not_true, Bool.false_eq_true,
        if_false, ih (s + 1), List.mem_cons]
      constructor
      · intro h rr hrr
        rcases hrr with rfl | hmem
        · exact hp
        · exact h rr hmem
      · intro h rr hmem
        exact h rr (Or.inr hmem)
    · simp only [Bool.not_eq_true] at hp
      simp only [firstUnprogrammedIdx, hp, Bool.not_false, if_true,
        List.mem_cons]
      constructor
      · intro h
        exact absurd h (by simp)
      · intro h
        exact absurd (h r (Or.inl rfl)) (by simp [hp])

theorem firstUnprogrammedIdx_some_iff (l : List CSVRow) : ∀ (s i : Nat),
    firstUnprogrammedIdx l s = some i ↔
      ∃ k, i = s + k ∧
        (∃ r, l[k]? = some r ∧ r.is_programmed = false) ∧
        (∀ j, j < k → ∀ r, l[j]? = some r → r.is_programmed = true) := by
  induction l with
  | nil =>
    intro s i
    simp [firstUnprogrammedIdx]
  | cons r rest ih =>
    intro s i
    by_cases hp : r.is_programmed
    · simp only [firstUnprogrammedIdx, hp, Bool.not_true, Bool.false_eq_true,
        if_false, ih (s + 1)]
      constructor
      · rintro ⟨k, rfl, ⟨row, hrow, hnp⟩, hbefore⟩
        refine ⟨k + 1, by omega, ⟨row, by simpa using hrow, hnp⟩, ?_⟩
        intro j hj rr hjr
        cases j with
        | zero =>
          simp only [List.getElem?_cons_zero, Option.some.injEq] at hjr
          rw [← hjr]
          exact hp
        | succ j =>
          exact hbefore j (by omega) rr (by simpa using hjr)
      · rintro ⟨k, hik, ⟨row, hrow, hnp⟩, hbefore⟩
        cases k with
        | zero =>
          simp only [List.getElem?_cons_zero, Option.some.injEq] at hrow
          rw [← hrow] at hnp
          exact absurd hp (by simp [hnp])
        | succ k =>
          refine ⟨k, by omega, ⟨row, by simpa using hrow, hnp⟩, ?_⟩
          intro j hj rr hjr
          exact hbefore (j + 1) (by omega) rr (by simpa using hjr)
    · simp only [Bool.not_eq_true] at hp
      simp only [firstUnprogrammedIdx, hp, Bool.not_false, if_true,
        Option.some.injEq]
      constructor
      · intro h
        refine ⟨0, by omega, ⟨r, by simp, hp⟩, ?_⟩
        intro j hj
        omega
      · rintro ⟨k, hik, ⟨row, hrow, hnp⟩, hbefore⟩
        cases k with
        | zero => omega
        | succ k =>
          have := hbefore 0 (by omega) r (by simp)
          rw [this] at hp
          cases hp

end CsvManager

/-! ## Claim theorems -/

/-- Claim C1: the claim says that updating an already-programmed row archives
the prior values under `reprogram_1_*` and makes the row's reprogram count 1,
and that a further update adds `reprogram_2_*`.  The code violates this:
`CSVRow.reprogram_count` counts the *columns* carrying the reprogram prefix
(three per event), so after the first update the count is 3 and the second
update creates `reprogram_4_*`.  This theorem evaluates the model at the
failing input: one programmed row with no prior reprogram columns, updated
twice. -/
theorem claim_C1_code_behavior :
    (CsvManager.update_selected_row
        { rows := [{ serial_number := "SN-001".data,
                     date_programmed := "2024-01-01 00:00:00".data,
                     firmware_version := "1.0.0".data }],
          all_columns := CsvManager.CSV_COLUMNS,
          selected_index := some 0 }
        "2.0.0".data "1.0".data "EU".data "B1".data [] true
        "2024-02-02 00:00:00".data).1.rows.map
      (fun r => (r.reprogram_count, r.extra_columns.map Prod.fst)) =
      [(3, ["reprogram_1_date".data, "reprogram_1_firmware".data,
            "reprogram_1_reason".data])] ∧
    (CsvManager.update_selected_row
        (CsvManager.update_selected_row
          { rows := [{ serial_number := "SN-001".data,
                       date_programmed := "2024-01-01 00:00:00".data,
                       firmware_version := "1.0.0".data }],
            all_columns := CsvManager.CSV_COLUMNS,
            selected_index := some 0 }
          "2.0.0".data "1.0".data "EU".data "B1".data [] true
          "2024-02-02 00:00:00".data).1
        "3.0.0".data "1.0".data "EU".data "B1".data [] true
        "2024-03-03 00:00:00".data).1.rows.map
      (fun r => r.extra_columns.map Prod.fst) =
      [["reprogram_1_date".data, "reprogram_1_firmware".data,
        "reprogram_1_reason".data, "reprogram_4_date".data,
        "reprogram_4_firmware".data, "reprogram_4_reason".data]] := by
  decide

/-- Claim C2 counterexample: the claim asserts the round-trip for every byte
buffer and serial.  For a buffer that already contains a decoy marker
`DEVICE_ID:X:END`, extraction returns the decoy's capture `X` (byte 88), not
the embedded serial `SN` (bytes 83, 78). -/
theorem claim_C2_counterexample :
    UF2Tools.embed_serial_number
        [68, 69, 86, 73, 67, 69, 95, 73, 68, 58, 88, 58, 69, 78, 68]
        [83, 78] =
      some (UF2Tools.embedCore
        [68, 69, 86, 73, 67, 69, 95, 73, 68, 58, 88, 58, 69, 78, 68]
        [83, 78]) ∧
    UF2Tools.extract_serial_from_uf2
        (UF2Tools.embedCore
          [68, 69, 86, 73, 67, 69, 95, 73, 68, 58, 88, 58, 69, 78, 68]
          [83, 78]) = some [88] ∧
    some [88] ≠ some [83, 78] := by
  decide

/-- Claim C2 (amended): for every byte buffer containing no `'D'` (0x44)
byte — so that no decoy or boundary-spliced `DEVICE_ID:...:END` pattern can
precede the embedded markers — and every non-empty serial containing no
colon byte, extracting the serial from the embedded result returns exactly
the serial that was embedded. -/
theorem claim_C2_theorem (data serial : List Nat)
    (hD : ∀ b ∈ data, b ≠ 68) (hne : serial ≠ [])
    (hcolon : ∀ b ∈ serial, b ≠ 58) :
    UF2Tools.embed_serial_number data serial =
      some (UF2Tools.embedCore data serial) ∧
    UF2Tools.extract_serial_from_uf2 (UF2Tools.embedCore data serial) =
      some serial :=
  ⟨by simp [UF2Tools.embed_serial_number, hne],
   UF2Tools.extract_embedCore data serial hD hne hcolon⟩

/-- Claim C2 witness: the amended round-trip at a concrete input. -/
theorem claim_C2_witness :
    (∀ b ∈ ([1, 2, 3] : List Nat), b ≠ 68) ∧
    ([83, 78] : List Nat) ≠ [] ∧
    (∀ b ∈ ([83, 78] : List Nat), b ≠ 58) ∧
    (UF2Tools.embed_serial_number [1, 2, 3] [83, 78] =
        some (UF2Tools.embedCore [1, 2, 3] [83, 78]) ∧
      UF2Tools.extract_serial_from_uf2 (UF2Tools.embedCore [1, 2, 3] [83, 78]) =
        some [83, 78]) :=
  ⟨by decide, by decide, by decide,
   claim_C2_theorem [1, 2, 3] [83, 78] (by decide) (by decide) (by decide)⟩

/-- Claim C5 counterexample: the claim asserts the occurrence count for every
input buffer.  For a buffer consisting of the marker text itself (serial
`A`, length 15 < 10240), the claimed count is `(15-1)/10240 + 1 = 1`, but
the output `marker ++ marker` contains 2 occurrences of the marker. -/
theorem claim_C5_counterexample :
    UF2Tools.countOcc (UF2Tools.markerBytes [65])
        (UF2Tools.embedCore (UF2Tools.markerBytes [65]) [65]) = 2 ∧
    ((UF2Tools.markerBytes [65]).length - 1) / 10240 + 1 = 1 ∧
    (2 : Nat) ≠ 1 := by
  decide

/-- Claim C5 (amended): for every buffer of length L and non-empty serial,
embedding inserts exactly `(L-1)/10240 + 1` copies of the marker (the
insertion-point list has `(L-1)/10240` entries — one per 10240 multiple
strictly below L — plus the trailing copy), and the output length is exactly
`L` plus that count times the marker length M.  When additionally the buffer
contains no `'D'` (0x44) byte and the serial contains no `'D'` byte, the
number of occurrences of the marker in the output equals that same count
(for other buffers pre-existing or boundary-spliced occurrences can add to
it, as the counterexample shows). -/
theorem claim_C5_theorem (data serial : List Nat) (hne : serial ≠ []) :
    UF2Tools.embed_serial_number data serial =
      some (UF2Tools.embedCore data serial) ∧
    (pythonRange 10240 data.length 10240).length =
      (data.length - 1) / 10240 ∧
    (UF2Tools.embedCore data serial).length =
      data.length +
        ((data.length - 1) / 10240 + 1) * (UF2Tools.markerBytes serial).length ∧
    ((∀ b ∈ data, b ≠ 68) → (∀ b ∈ serial, b ≠ 68) →
      UF2Tools.countOcc (UF2Tools.markerBytes serial)
          (UF2Tools.embedCore data serial) =
        (data.length - 1) / 10240 + 1) :=
  ⟨by simp [UF2Tools.embed_serial_number, hne],
   UF2Tools.pythonRange_length data.length,
   UF2Tools.embedCore_length data serial,
   fun hD hs => UF2Tools.countOcc_embedCore data serial hD hs⟩

/-- Claim C5 witness: the amended placement properties at a concrete
input. -/
theorem claim_C5_witness :
    ([83, 78] : List Nat) ≠ [] ∧
    (UF2Tools.embed_serial_number [1, 2, 3] [83, 78] =
        some (UF2Tools.embedCore [1, 2, 3] [83, 78]) ∧
      (pythonRange 10240 ([1, 2, 3] : List Nat).length 10240).length =
        (([1, 2, 3] : List Nat).length - 1) / 10240 ∧
      (UF2Tools.embedCore [1, 2, 3] [83, 78]).length =
        ([1, 2, 3] : List Nat).length +
          ((([1, 2, 3] : List Nat).length - 1) / 10240 + 1) *
            (UF2Tools.markerBytes [83, 78]).length ∧
      ((∀ b ∈ ([1, 2, 3] : List Nat), b ≠ 68) →
        (∀ b ∈ ([83, 78] : List Nat), b ≠ 68) →
        UF2Tools.countOcc (UF2Tools.markerBytes [83, 78])
            (UF2Tools.embedCore [1, 2, 3] [83, 78]) =
          (([1, 2, 3] : List Nat).length - 1) / 10240 + 1)) :=
  ⟨by decide, claim_C5_theorem [1, 2, 3] [83, 78] (by decide)⟩

/-- Claim C3 counterexample: the claim states the generated raster is exactly
886 × 591 pixels; the code computes the target size with `int(...)`
(truncation), so for any rendered input size (here 1000 × 800) the final
dimensions are 885 × 590, not 886 × 591. -/
theorem claim_C3_counterexample :
    LabelGenerator.generate_label_dims (1000, 800) = (885, 590) ∧
    LabelGenerator.generate_label_dims (1000, 800) ≠ (886, 591) := by
  decide

/-- Claim C3 (amended): for every rendered raster size, the label pixel
dimensions after the resize step are exactly 885 × 590 — computed as
`int(75/25.4*300)` by `int(50/25.4*300)`, i.e. truncation rather than
rounding — regardless of the source SVG's native size. -/
theorem claim_C3_theorem (rendered : Nat × Nat) :
    LabelGenerator.generate_label_dims rendered =
      (LabelGenerator.width_px, LabelGenerator.height_px) ∧
    LabelGenerator.width_px = 885 ∧ LabelGenerator.height_px = 590 := by
  refine ⟨?_, by decide, by decide⟩
  unfold LabelGenerator.generate_label_dims LabelGenerator.resize_image
  split
  · rfl
  · rename_i hcond
    exact not_not.mp hcond

/-- Claim C4 counterexample: the claim says the numeric version is
LEFT-padded with zeros to a minimum of 3 characters; the code uses
`str.ljust(3, '0')`, which pads on the RIGHT.  For firmware version "1.2"
the code substitutes "120" where the claim predicts "012". -/
theorem claim_C4_counterexample :
    SerialManager.generate_serial_header_content
        "NUMERIC_VERSION_PLACEHOLDER".data "SN-001".data "1.2".data =
      "120".data ∧
    SerialManager.claimed_header_content
        "NUMERIC_VERSION_PLACEHOLDER".data "SN-001".data "1.2".data =
      "012".data ∧
    "120".data ≠ "012".data := by
  decide

/-- Claim C4 (amended): for every firmware-version string,
`generate_serial_header` computes the numeric version by stripping every
non-digit character and, when fewer than 3 digits remain, RIGHT-padding the
digit string with zeros to a minimum of 3 characters, then substitutes it
for the numeric-version placeholder in the template (after the serial-number
and firmware-version placeholders). -/
theorem claim_C4_theorem (template serial fw : List Char) :
    SerialManager.generate_serial_header_content template serial fw =
      pyReplace
        (pyReplace (pyReplace template "SERIAL_NUMBER_PLACEHOLDER".data serial)
          "FIRMWARE_VERSION_PLACEHOLDER".data fw)
        "NUMERIC_VERSION_PLACEHOLDER".data
        ((fw.filter Char.isDigit) ++
          List.replicate (3 - (fw.filter Char.isDigit).length) '0') := by
  unfold SerialManager.generate_serial_header_content
  have hnum : SerialManager.numeric_version fw =
      (fw.filter Char.isDigit) ++
        List.replicate (3 - (fw.filter Char.isDigit).length) '0' := by
    simp only [SerialManager.numeric_version, ljust]
    split
    · rfl
    · rename_i hge
      rw [show 3 - (fw.filter Char.isDigit).length = 0 by omega]
      simp
  rw [hnum]

/-- Claim C6 counterexample: `Verifier.verify` does not always record 4
checks — when the `SYSINFO` query yields nothing it returns early with an
`ERROR` result carrying zero checks, on which "every check passed" holds
vacuously while the status is not `PASSED`. -/
theorem claim_C6_counterexample :
    (Verification.verify [] [] "SN-1".data "EU".data "1.0".data
      "1.0".data).checks.length = 0 ∧
    (∀ c ∈ (Verification.verify [] [] "SN-1".data "EU".data "1.0".data
      "1.0".data).checks, c.passed = true) ∧
    (Verification.verify [] [] "SN-1".data "EU".data "1.0".data
      "1.0".data).status ≠ Verification.VerificationStatus.passed := by
  refine ⟨by decide, ?_, by decide⟩
  intro c hc
  simp [Verification.verify] at hc

/-- Claim C6 (amended): for every `VerificationResult` produced by
`Verifier.verify` from a non-empty `SYSINFO` reply — the path on which it
records its 4 checks; an empty or absent reply instead yields an `ERROR`
result with zero checks — the status is `PASSED` iff every check passed,
`FAILED` iff no check passed, `PARTIAL` otherwise, and the message reports
the exact pass/fail counts in the three corresponding formats. -/
theorem claim_C6_theorem (sysinfo netinfo : List (List Char × List Char))
    (hsys : sysinfo ≠ []) (sn region fw hw : List Char)
    (r : Verification.VerificationResult)
    (hr : r = Verification.verify sysinfo netinfo sn region fw hw) :
    r.checks.length = 4 ∧
    (r.status = Verification.VerificationStatus.passed ↔
      ∀ c ∈ r.checks, c.passed = true) ∧
    (r.status = Verification.VerificationStatus.failed ↔
      ∀ c ∈ r.checks, c.passed = false) ∧
    (r.status = Verification.VerificationStatus.partialResult ↔
      ((∃ c ∈ r.checks, c.passed = true) ∧ (∃ c ∈ r.checks, c.passed = false))) ∧
    r.message =
      (if (r.checks.filter (fun c => !c.passed)).length = 0 then
        "All ".data ++ natToChars (r.checks.filter (fun c => c.passed)).length ++
          " checks passed".data
      else if 0 < (r.checks.filter (fun c => c.passed)).length then
        natToChars (r.checks.filter (fun c => c.passed)).length ++
          " passed, ".data ++
          natToChars (r.checks.filter (fun c => !c.passed)).length ++
          " failed".data
      else
        "All ".data ++ natToChars (r.checks.filter (fun c => !c.passed)).length ++
          " checks failed".data) := by
  subst hr
  have hempty : sysinfo.isEmpty = false := by
    simpa [List.isEmpty_iff] using hsys
  unfold Verification.verify
  simp only [hempty, Bool.false_eq_true, if_false, Verification.mkCheck]
  generalize Verification.add_check_passed sn _ = b1
  generalize Verification.add_check_passed region _ = b2
  generalize Verification.add_check_passed fw _ = b3
  generalize Verification.add_check_passed hw _ = b4
  cases b1 <;> cases b2 <;> cases b3 <;> cases b4 <;>
    simp [List.filter]

/-- Claim C6 witness: a concrete `SYSINFO` reply on which all four checks
pass, giving 4 checks and status `PASSED`. -/
theorem claim_C6_witness :
    ([("serial_number".data, "SN-1".data), ("region".data, "EU".data),
      ("firmware_version".data, "1.0".data),
      ("hardware_version".data, "1.0".data)] :
        List (List Char × List Char)) ≠ [] ∧
    (Verification.verify
        [("serial_number".data, "SN-1".data), ("region".data, "EU".data),
         ("firmware_version".data, "1.0".data),
         ("hardware_version".data, "1.0".data)] []
        "SN-1".data "EU".data "1.0".data "1.0".data).checks.length = 4 ∧
    (Verification.verify
        [("serial_number".data, "SN-1".data), ("region".data, "EU".data),
         ("firmware_version".data, "1.0".data),
         ("hardware_version".data, "1.0".data)] []
        "SN-1".data "EU".data "1.0".data "1.0".data).status =
      Verification.VerificationStatus.passed := by
  refine ⟨by decide, ?_, ?_⟩
  · exact (claim_C6_theorem _ [] (by decide) "SN-1".data "EU".data "1.0".data
      "1.0".data _ rfl).1
  · exact (claim_C6_theorem _ [] (by decide) "SN-1".data "EU".data "1.0".data
      "1.0".data _ rfl).2.1.mpr (by decide)

/-- Claim C7: in every workflow run in which the firmware upload executed
(the first stop check passed) and reported failure, none of the later
workflow states is ever entered, the ledger CSV is neither updated nor
saved, and the run terminates in the `ERROR` state. -/
theorem claim_C7_theorem (env : Workflow.WorkflowEnv)
    (hstop : env.stopRequested 0 = false)
    (hup : env.uploadSuccess = false) :
    Workflow.WorkflowState.WAITING_FOR_SERIAL ∉ (Workflow.run_workflow env).states ∧
    Workflow.WorkflowState.PROVISIONING ∉ (Workflow.run_workflow env).states ∧
    Workflow.WorkflowState.VERIFYING ∉ (Workflow.run_workflow env).states ∧
    Workflow.WorkflowState.GENERATING_LABEL ∉ (Workflow.run_workflow env).states ∧
    Workflow.WorkflowState.GENERATING_REPORT ∉ (Workflow.run_workflow env).states ∧
    Workflow.WorkflowState.UPDATING_CSV ∉ (Workflow.run_workflow env).states ∧
    Workflow.WorkflowState.COMPLETED ∉ (Workflow.run_workflow env).states ∧
    (Workflow.run_workflow env).csvUpdated = false ∧
    (Workflow.run_workflow env).csvSaved = false ∧
    (Workflow.run_workflow env).outcome =
      Workflow.WorkflowOutcome.errored
        ("Firmware upload failed: ".data ++ env.uploadMessage) ∧
    (Workflow.run_workflow env).terminalState = Workflow.WorkflowState.ERROR := by
  have hrun : Workflow.run_workflow env =
      ⟨[Workflow.WorkflowState.UPLOADING_FIRMWARE], false, false,
        Workflow.WorkflowOutcome.errored
          ("Firmware upload failed: ".data ++ env.uploadMessage)⟩ := by
    unfold Workflow.run_workflow
    simp [hstop, hup]
  rw [hrun]
  simp [Workflow.WorkflowRun.terminalState]

/-- Claim C7 witness: a concrete environment whose upload step fails. -/
theorem claim_C7_witness :
    (({ stopRequested := fun _ => false, uploadSuccess := false,
        uploadMessage := [], serialPort := none, provisioningSuccess := false,
        provisioningMessage := [], portAfterReboot := none,
        verificationSuccess := false, labelSuccess := false,
        csvLoaded := false, csvUpdateOk := false, csvSaveOk := false } :
          Workflow.WorkflowEnv).stopRequested 0 = false) ∧
    (({ stopRequested := fun _ => false, uploadSuccess := false,
        uploadMessage := [], serialPort := none, provisioningSuccess := false,
        provisioningMessage := [], portAfterReboot := none,
        verificationSuccess := false, labelSuccess := false,
        csvLoaded := false, csvUpdateOk := false, csvSaveOk := false } :
          Workflow.WorkflowEnv).uploadSuccess = false) ∧
    Workflow.WorkflowState.UPDATING_CSV ∉
      (Workflow.run_workflow
        { stopRequested := fun _ => false, uploadSuccess := false,
          uploadMessage := [], serialPort := none, provisioningSuccess := false,
          provisioningMessage := [], portAfterReboot := none,
          verificationSuccess := false, labelSuccess := false,
          csvLoaded := false, csvUpdateOk := false, csvSaveOk := false }).states ∧
    (Workflow.run_workflow
        { stopRequested := fun _ => false, uploadSuccess := false,
          uploadMessage := [], serialPort := none, provisioningSuccess := false,
          provisioningMessage := [], portAfterReboot := none,
          verificationSuccess := false, labelSuccess := false,
          csvLoaded := false, csvUpdateOk := false,
          csvSaveOk := false }).terminalState = Workflow.WorkflowState.ERROR := by
  refine ⟨rfl, rfl, ?_, ?_⟩
  · exact (claim_C7_theorem _ rfl rfl).2.2.2.2.2.1
  · exact (claim_C7_theorem _ rfl rfl).2.2.2.2.2.2.2.2.2.2

/-- Claim C8: in `deploy_firmware` with verification enabled and a non-empty
expected serial, a detected serial that differs from the expected one (the
monitor reports it with `verified = false`, `flasher_core.py` lines 147-151)
yields failure unless the reprogram flag is set, in which case success;
whereas a missing new serial port, or a monitor result without a
contradicting serial, still yields success.  The last three conjuncts tie
the shared verification tail to the ELF attempt and to the UF2 fallback of
`deploy_firmware`. -/
theorem claim_C8_theorem (sn : List Char) (hsn : sn ≠ []) (reprogram : Bool)
    (port : Option (List Char)) (monitor : FlasherCore.MonitorResult) :
    (port = none →
      FlasherCore.verifyTail (some sn) true reprogram port monitor = true) ∧
    (∀ p ds df, port = some p →
      monitor = ⟨false, some ds, df⟩ → ds ≠ [] → ds ≠ sn →
      FlasherCore.verifyTail (some sn) true reprogram port monitor =
        (if reprogram then true else false)) ∧
    (∀ p, port = some p → monitor.verified = false →
      (pyTruthy monitor.detected_serial &&
        (monitor.detected_serial != some sn)) = false →
      FlasherCore.verifyTail (some sn) true reprogram port monitor = true) ∧
    (∀ env : FlasherCore.DeployEnv, ∀ u e, env.uf2Path = some u →
      env.elfPath = some e → env.elfFlashOk = true →
      FlasherCore.deploy_firmware env (some sn) true reprogram =
        FlasherCore.verifyTail (some sn) true reprogram env.portElf
          env.monitorElf) ∧
    (∀ env : FlasherCore.DeployEnv, ∀ u, env.uf2Path = some u →
      env.elfPath = none → env.uf2FlashOk = true →
      FlasherCore.deploy_firmware env (some sn) true reprogram =
        FlasherCore.verifyTail (some sn) true reprogram env.portUf2
          env.monitorUf2) ∧
    (∀ env : FlasherCore.DeployEnv, ∀ u e, env.uf2Path = some u →
      env.elfPath = some e → env.elfFlashOk = false → env.uf2FlashOk = true →
      FlasherCore.deploy_firmware env (some sn) true reprogram =
        FlasherCore.verifyTail (some sn) true reprogram env.portUf2
          env.monitorUf2) := by
  refine ⟨?_, ?_, ?_, ?_, ?_, ?_⟩
  · rintro rfl
    rfl
  · rintro p ds df rfl rfl hds hne
    simp only [FlasherCore.verifyTail, Bool.not_true, Bool.false_eq_true,
      if_false, pyTruthy]
    have h1 : (ds.isEmpty = false) := by simpa [List.isEmpty_iff] using hds
    have h2 : (sn.isEmpty = false) := by simpa [List.isEmpty_iff] using hsn
    have h3 : ((some ds != some sn) = true) := by
      simp [bne_iff_ne]
      exact hne
    simp [h1, h2, h3]
  · rintro p rfl hv hcond
    rcases Bool.and_eq_false_iff.mp hcond with h1 | h2
    · simp [FlasherCore.verifyTail, hv, h1]
    · simp [FlasherCore.verifyTail, hv, h2]
  · rintro env u e hu he hf
    simp [FlasherCore.deploy_firmware, hu, he, hf]
  · rintro env u hu he hf
    simp [FlasherCore.deploy_firmware, hu, he, hf]
  · rintro env u e hu he hfe hfu
    simp [FlasherCore.deploy_firmware, hu, he, hfe, hfu]

/-- Claim C8 witness: a run whose monitor detects a different non-empty
serial fails without the reprogram flag, and a run with no detected port
succeeds. -/
theorem claim_C8_witness :
    ("SN-002".data : List Char) ≠ [] ∧
    FlasherCore.verifyTail (some "SN-002".data) true false (some "COM3".data)
      ⟨false, some "SN-001".data, none⟩ = (if false then true else false) ∧
    FlasherCore.verifyTail (some "SN-002".data) true false none
      ⟨false, none, none⟩ = true :=
  ⟨by decide,
   (claim_C8_theorem ("SN-002".data) (by decide) false (some "COM3".data)
      ⟨false, some "SN-001".data, none⟩).2.1 "COM3".data "SN-001".data none
      rfl rfl (by decide) (by decide),
   (claim_C8_theorem ("SN-002".data) (by decide) false none
      ⟨false, none, none⟩).1 rfl⟩

/-- Claim C9: with the external tool present, every firmware path failing
validation (missing, not a regular file, extension outside `.elf/.hex/.uf2`,
or size below 100 bytes or above 16 MiB — exactly the disjunction in the
second conjunct) makes `upload` return status `FIRMWARE_NOT_FOUND` with
`success = false` and without invoking the tool; and `upload` never returns
`INVALID_FIRMWARE` for any input. -/
theorem claim_C9_theorem :
    (∀ fw : FirmwareUploader.FirmwareFile, ∀ run,
      (FirmwareUploader.verify_firmware fw).1 = false →
      (FirmwareUploader.upload true fw run).1.status =
          FirmwareUploader.UploadStatus.firmware_not_found ∧
        (FirmwareUploader.upload true fw run).1.success = false ∧
        (FirmwareUploader.upload true fw run).2 = false) ∧
    (∀ fw : FirmwareUploader.FirmwareFile,
      (FirmwareUploader.verify_firmware fw).1 = false ↔
        (fw.existsOnDisk = false ∨ fw.is_file = false ∨
          fw.suffixLower ∉ FirmwareUploader.FIRMWARE_EXTENSIONS ∨
          fw.size < 100 ∨ 16 * 1024 * 1024 < fw.size)) ∧
    (∀ pe fw run, (FirmwareUploader.upload pe fw run).1.status ≠
      FirmwareUploader.UploadStatus.invalid_firmware) := by
  refine ⟨?_, ?_, ?_⟩
  · intro fw run hv
    simp [FirmwareUploader.upload, hv, FirmwareUploader.UploadResult.success]
  · intro fw
    obtain ⟨e, f, s, z⟩ := fw
    simp only [FirmwareUploader.verify_firmware]
    by_cases hm : s ∈ FirmwareUploader.FIRMWARE_EXTENSIONS <;>
      by_cases h1 : z < 100 <;> by_cases h2 : 16 * 1024 * 1024 < z <;>
      cases e <;> cases f <;>
      simp_all [List.elem_iff] <;> repeat' split <;> simp_all <;> try omega
  · intro pe fw run
    simp only [FirmwareUploader.upload]
    repeat' split
    all_goals simp

/-- Claim C9 witness: a too-small firmware file with the tool present. -/
theorem claim_C9_witness :
    (FirmwareUploader.verify_firmware
      { existsOnDisk := true, is_file := true, suffixLower := ".uf2".data,
        size := 10 }).1 = false ∧
    (FirmwareUploader.upload true
      { existsOnDisk := true, is_file := true, suffixLower := ".uf2".data,
        size := 10 }
      (FirmwareUploader.PicotoolRun.completed 0 [] [])).1.status =
      FirmwareUploader.UploadStatus.firmware_not_found :=
  ⟨by decide,
   (claim_C9_theorem.1
      { existsOnDisk := true, is_file := true, suffixLower := ".uf2".data,
        size := 10 }
      (FirmwareUploader.PicotoolRun.completed 0 [] []) (by decide)).1⟩

/-- Claim C10: after every successful `CSVManager.load`, the selection
cursor points at the first row whose `date_programmed` is empty or
whitespace-only when such a row exists, no row is selected when every row is
programmed or there are no rows, and the resulting state is independent of
the previously loaded state (so a previous selection is never carried
over). -/
theorem claim_C10_theorem (prev : CsvManager.CSVManagerState)
    (fieldnames : List (List Char)) (rows : List CsvManager.CSVRow) :
    (CsvManager.load prev fieldnames rows).rows = rows ∧
    (∀ i, (CsvManager.load prev fieldnames rows).selected_index = some i ↔
      ((∃ r, rows[i]? = some r ∧ (pyStrip r.date_programmed).isEmpty = true) ∧
        ∀ j, j < i → ∀ r, rows[j]? = some r →
          (pyStrip r.date_programmed).isEmpty = false)) ∧
    ((CsvManager.load prev fieldnames rows).selected_index = none ↔
      ∀ r ∈ rows, (pyStrip r.date_programmed).isEmpty = false) ∧
    (∀ prev2, CsvManager.load prev2 fieldnames rows =
      CsvManager.load prev fieldnames rows) := by
  have hsel : ∀ st1 : CsvManager.CSVManagerState, st1.selected_index = none →
      ((CsvManager.select_next_unprogrammed st1).1.rows = st1.rows ∧
       (CsvManager.select_next_unprogrammed st1).1.all_columns = st1.all_columns ∧
       (CsvManager.select_next_unprogrammed st1).1.selected_index =
         CsvManager.firstUnprogrammedIdx st1.rows 0) := by
    intro st1 hnone
    cases hfind : CsvManager.firstUnprogrammedIdx st1.rows 0 with
    | none =>
      have heq : CsvManager.select_next_unprogrammed st1 = (st1, false) := by
        unfold CsvManager.select_next_unprogrammed
        rw [hfind]
      rw [heq]
      exact ⟨rfl, rfl, hnone⟩
    | some i =>
      obtain ⟨k, hik, ⟨row, hrow, _⟩, _⟩ :=
        (CsvManager.firstUnprogrammedIdx_some_iff st1.rows 0 i).mp hfind
      have hlt : i < st1.rows.length := by
        obtain ⟨hklt, _⟩ := List.getElem?_eq_some.mp hrow
        omega
      have heq : CsvManager.select_next_unprogrammed st1 =
          CsvManager.select_row st1 i := by
        unfold CsvManager.select_next_unprogrammed
        rw [hfind]
      rw [heq]
      unfold CsvManager.select_row
      rw [if_pos hlt, hnone]
      simp
  have hload : ∀ p : CsvManager.CSVManagerState,
      (CsvManager.load p fieldnames rows).rows = rows ∧
      (CsvManager.load p fieldnames rows).selected_index =
        CsvManager.firstUnprogrammedIdx rows 0 := by
    intro p
    unfold CsvManager.load
    have h := hsel
      ({ rows := rows, all_columns := CsvManager.buildColumns fieldnames,
         selected_index := none } : CsvManager.CSVManagerState) rfl
    exact ⟨h.1, h.2.2⟩
  refine ⟨(hload prev).1, ?_, ?_, ?_⟩
  · intro i
    rw [(hload prev).2, CsvManager.firstUnprogrammedIdx_some_iff rows 0 i]
    constructor
    · rintro ⟨k, hik, ⟨row, hrow, hnp⟩, hbefore⟩
      have hk : i = k := by omega
      subst hk
      refine ⟨⟨row, hrow, ?_⟩, ?_⟩
      · simpa [CsvManager.CSVRow.is_programmed] using hnp
      · intro j hj r hjr
        have := hbefore j hj r hjr
        simpa [CsvManager.CSVRow.is_programmed] using this
    · rintro ⟨⟨row, hrow, hempty⟩, hbefore⟩
      refine ⟨i, by omega, ⟨row, hrow, ?_⟩, ?_⟩
      · simpa [CsvManager.CSVRow.is_programmed] using hempty
      · intro j hj r hjr
        have := hbefore j hj r hjr
        simpa [CsvManager.CSVRow.is_programmed] using this
  · rw [(hload prev).2, CsvManager.firstUnprogrammedIdx_none_iff rows 0]
    constructor
    · intro h r hr
      have := h r hr
      simpa [CsvManager.CSVRow.is_programmed] using this
    · intro h r hr
      have := h r hr
      simpa [CsvManager.CSVRow.is_programmed] using this
  · intro prev2
    unfold CsvManager.load
    rfl

/-- Claim C10 witness: loading a two-row file (first row programmed, second
blank) selects index 1 regardless of a previous selection. -/
theorem claim_C10_witness :
    (CsvManager.load
      { rows := [], all_columns := [], selected_index := some 0 }
      ["serial_number".data]
      [{ serial_number := "A".data,
         date_programmed := "2024-01-01".data },
       { serial_number := "B".data, date_programmed := " ".data }]).selected_index =
      some 1 := by
  have h := (claim_C10_theorem
    { rows := [], all_columns := [], selected_index := some 0 }
    ["serial_number".data]
    [{ serial_number := "A".data, date_programmed := "2024-01-01".data },
     { serial_number := "B".data, date_programmed := " ".data }]).2.1 1
  exact h.mpr (by decide)

end ProductionFlasher
